import Mathlib

/-!
Verification of a multi-protocol forwarding proxy (shared-port SOCKS4 /
SOCKS5 / HTTP proxy with a one-byte protocol probe, a bidirectional TCP
tunnel and a SOCKS5 UDP relay).

Modelling conventions, used uniformly below:
* Go strings and byte slices are `List Nat` (a Go string is a byte
  sequence; every literal that matters here is ASCII).
* Go errors are `Option GoStr` (`none` is the nil error) and fallible
  operations return `Except GoStr`.
* Methods that mutate a receiver are explicit state-passing functions.
  The single mutex guarding the UDP relay state is elided: each locked
  critical section is modelled as one atomic step, which is exactly the
  interleaving granularity the lock enforces.
* `runtime.GOOS` is taken to be a non-windows platform, so the
  windows-only branch of `isClosedConnError` (which inspects syscall
  error structure) is the identically-false branch and is dropped.
-/

/-- Go strings / byte slices, as lists of byte values. -/
abbrev GoStr := List Nat

/-- Byte list of an ASCII string literal (for ASCII, code points = UTF-8 bytes). -/
def gs (s : String) : GoStr := s.toList.map Char.toNat

/-- Whether `p` is a leading run of `s` (helper for the substring test). -/
def listStartsWith : GoStr → GoStr → Bool
  | [], _ => true
  | _ :: _, [] => false
  | a :: as, b :: bs => a == b && listStartsWith as bs

/-- `strings.Contains(s, sub)`: some suffix of `s` starts with `sub`. -/
def goContainsAux (sub : GoStr) : GoStr → Bool
  | [] => listStartsWith sub []
  | c :: t => listStartsWith sub (c :: t) || goContainsAux sub t

/-- `strings.Contains(s, sub)` from the Go standard library. -/
def goContains (s sub : GoStr) : Bool := goContainsAux sub s

/-- Decimal digits of `n`, most significant first (fuel-indexed so the
kernel can reduce it; the fuel `n+1` always suffices). -/
def decDigitsAux : Nat → Nat → GoStr
  | 0, _ => []
  | fuel + 1, n => if n < 10 then [48 + n] else decDigitsAux fuel (n / 10) ++ [48 + n % 10]

/-- Go `strconv.Itoa` for naturals, as ASCII bytes. -/
def decDigits (n : Nat) : GoStr := decDigitsAux (n + 1) n

/-- One lowercase hex digit. -/
def hexDigit (n : Nat) : Nat := if n < 10 then 48 + n else 87 + n

/-- Minimal lowercase hex digits of `n` (fuel-indexed like `decDigitsAux`). -/
def hexDigitsAux : Nat → Nat → GoStr
  | 0, _ => []
  | fuel + 1, n => if n < 16 then [hexDigit n] else hexDigitsAux fuel (n / 16) ++ [hexDigit (n % 16)]

/-- Minimal lowercase hex representation of `n`. -/
def hexDigits (n : Nat) : GoStr := hexDigitsAux (n + 1) n

/-- Two-digit lowercase hex of every byte, concatenated (Go `hexString`). -/
def hexAll (bytes : List Nat) : GoStr :=
  bytes.flatMap (fun b => [hexDigit (b / 16), hexDigit (b % 16)])

/- ### pkg/statute/tunnel.go -/

/-- The substring that identifies a closed-connection error. -/
def closedConnSub : GoStr := gs (r"use of closed network connection")

/-- `isClosedConnError` from `pkg/statute/tunnel.go`: nil is not a
closed-connection error; otherwise test the message for the
"use of closed network connection" substring.  The `runtime.GOOS ==
"windows"` branch is dropped (non-windows platform assumed). -/
def isClosedConnError (err : Option GoStr) : Bool :=
  match err with
  | none => false
  | some msg => goContains msg closedConnSub

/-- `tunnelErr.FirstError`: scan the five slots in order; at the first
non-nil error, return nil if it is a closed-connection error, otherwise
return that error; if all slots are nil return nil. -/
def tunnelErrFirstError : List (Option GoStr) → Option GoStr
  | [] => none
  | err :: rest =>
    match err with
    | none => tunnelErrFirstError rest
    | some e => if isClosedConnError (some e) then none else some e

/-- The possible values of `ctx.Err()` once `ctx.Done()` has fired. -/
inductive CtxDoneErr where
  | canceled
  | deadlineExceeded
deriving DecidableEq

/-- The error value `ctx.Err()` returns for each reason. -/
def ctxErrValue : CtxDoneErr → Option GoStr
  | .canceled => some (gs (r"context canceled"))
  | .deadlineExceeded => some (gs (r"context deadline exceeded"))

/-- The five error slots `Tunnel` assembles before calling `FirstError`:
`errs[0]`/`errs[1]` are the two `io.CopyBuffer` results, `errs[2]`/`errs[3]`
the two `Close` results, and `errs[4]` is `ctx.Err()` with the
`context.Canceled` sentinel replaced by nil. -/
def tunnelSlots (copyErr0 copyErr1 closeSrcErr closeDstErr : Option GoStr)
    (c : CtxDoneErr) : List (Option GoStr) :=
  [copyErr0, copyErr1, closeSrcErr, closeDstErr,
    if c = CtxDoneErr.canceled then none else ctxErrValue c]

/-- The value `Tunnel` returns, as a function of the five observed errors. -/
def tunnelResult (copyErr0 copyErr1 closeSrcErr closeDstErr : Option GoStr)
    (c : CtxDoneErr) : Option GoStr :=
  tunnelErrFirstError (tunnelSlots copyErr0 copyErr1 closeSrcErr closeDstErr c)

/-- Written from the spec sentence, for comparison with the code: "return
the first non-closed-connection error observed across the two copies, the
two closes, and the cancellation cause" — i.e. closed-connection errors
are skipped and the scan continues. -/
def specFirstNonClosed : List (Option GoStr) → Option GoStr
  | [] => none
  | err :: rest =>
    match err with
    | none => specFirstNonClosed rest
    | some e => if isClosedConnError (some e) then specFirstNonClosed rest else some e

/- ### SOCKS5 reply codes and errToReply -/

def successReply : Nat := 0x00
def serverFailure : Nat := 0x01
def ruleFailure : Nat := 0x02
def networkUnreachable : Nat := 0x03
def hostUnreachable : Nat := 0x04
def connectionRefused : Nat := 0x05
def ttlExpired : Nat := 0x06
def commandNotSupported : Nat := 0x07
def addrTypeNotSupported : Nat := 0x08

/-- The substring tested for the connection-refused mapping. -/
def refusedSub : GoStr := gs (r"refused")

/-- The substring tested for the network-unreachable mapping. -/
def netUnreachableSub : GoStr := gs (r"network is unreachable")

/-- `errToReply` from the SOCKS5 engine: nil maps to success; otherwise
start from host-unreachable, switching to connection-refused when the
message contains "refused", else to network-unreachable when it contains
"network is unreachable". -/
def errToReply (err : Option GoStr) : Nat :=
  match err with
  | none => successReply
  | some msg =>
    if goContains msg refusedSub then connectionRefused
    else if goContains msg netUnreachableSub then networkUnreachable
    else hostUnreachable

/- ### The SOCKS address codec -/

/-- The SOCKS-specific `address` struct: either `name` or `ip` is used
exclusively (`[]` models a nil/empty field). -/
structure SockAddr where
  name : GoStr
  ip : List Nat
  port : Nat
deriving DecidableEq

/-- `net.IP.To4`: a 4-byte form when the IP is 4 bytes already or is an
IPv4-mapped 16-byte address (first ten bytes zero then `0xff 0xff`). -/
def to4 (ip : List Nat) : Option (List Nat) :=
  if ip.length = 4 then some ip
  else if ip.length = 16 ∧ (ip.take 10).all (fun x => decide (x = 0)) = true
      ∧ ip.getD 10 0 = 255 ∧ ip.getD 11 0 = 255 then
    some (ip.drop 12)
  else none

/-- The 12-byte IPv4-in-IPv6 mapping marker. -/
def v4InV6Marker : List Nat := [0, 0, 0, 0, 0, 0, 0, 0, 0, 0, 255, 255]

/-- `net.IP.To16`. -/
def to16 (ip : List Nat) : Option (List Nat) :=
  if ip.length = 4 then some (v4InV6Marker ++ ip)
  else if ip.length = 16 then some ip
  else none

/-- `net.IP.Equal`: byte equality at equal lengths, and a 4-byte address
equals the 16-byte IPv4-mapped form with the same last four bytes. -/
def ipEqualGo (x ip : List Nat) : Bool :=
  if x.length = ip.length then x == ip
  else if x.length = 4 && ip.length = 16 then
    (ip.take 12 == v4InV6Marker) && (ip.drop 12 == x)
  else if x.length = 16 && ip.length = 4 then
    (x.take 12 == v4InV6Marker) && (x.drop 12 == ip)
  else false

def eofMsg : GoStr := gs (r"EOF")
def unexpectedEofMsg : GoStr := gs (r"unexpected EOF")
def errUnrecognizedAddrTypeMsg : GoStr := gs (r"unrecognized address type")
def errStringTooLongMsg : GoStr := gs (r"string too long")

/-- `io.ReadFull` of `n` bytes from a byte stream: the bytes and the rest,
or EOF / unexpected-EOF on a short stream. -/
def readN (n : Nat) (s : List Nat) : Except GoStr (List Nat × List Nat) :=
  if n ≤ s.length then .ok (s.take n, s.drop n)
  else if s.length = 0 then .error eofMsg
  else .error unexpectedEofMsg

/-- Big-endian 16-bit value of a 2-byte list (`binary.BigEndian.Uint16`). -/
def be16 (pb : List Nat) : Nat := pb.headD 0 * 256 + (pb.drop 1).headD 0

/-- The final step of `readAddr`: read the 2-byte big-endian port. -/
def readPortInto (a : SockAddr) (s : List Nat) : Except GoStr (SockAddr × List Nat) :=
  match readN 2 s with
  | .error e => .error e
  | .ok (pb, s1) => .ok ({a with port := be16 pb}, s1)

/-- `readAddr`: one type byte (0x01 IPv4 / 0x04 IPv6 / 0x03 FQDN with a
length byte), the payload, then the 2-byte big-endian port.  Returns the
parsed address and the unconsumed rest of the stream. -/
def readAddrL (s : List Nat) : Except GoStr (SockAddr × List Nat) :=
  match s with
  | [] => .error eofMsg
  | t :: s1 =>
    if t = 1 then
      match readN 4 s1 with
      | .error e => .error e
      | .ok (ipb, s2) => readPortInto ⟨[], ipb, 0⟩ s2
    else if t = 4 then
      match readN 16 s1 with
      | .error e => .error e
      | .ok (ipb, s2) => readPortInto ⟨[], ipb, 0⟩ s2
    else if t = 3 then
      match s1 with
      | [] => .error eofMsg
      | ln :: s2 =>
        match readN ln s2 with
        | .error e => .error e
        | .ok (nm, s3) => readPortInto ⟨nm, [], 0⟩ s3
    else .error errUnrecognizedAddrTypeMsg

/-- `writeAddr`, as the byte sequence it emits.  A nil address is
IPv4 zero with port zero; an IP prefers the 4-byte form, falls back to the
16-byte form, and degenerates to IPv4 zero for other lengths; a non-empty
name longer than 255 bytes fails with `errStringTooLong`; the port is
written as `uint16(addr.Port)` big-endian (truncation kept explicit). -/
def writeAddrBytes (addr : Option SockAddr) : Except GoStr (List Nat) :=
  match addr with
  | none => .ok [1, 0, 0, 0, 0, 0, 0]
  | some a =>
    let portBytes := [a.port % 65536 / 256, a.port % 256]
    if a.ip.length ≠ 0 then
      match to4 a.ip with
      | some ip4 => .ok ([1] ++ ip4 ++ portBytes)
      | none =>
        match to16 a.ip with
        | some ip6 => .ok ([4] ++ ip6 ++ portBytes)
        | none => .ok ([1, 0, 0, 0, 0] ++ portBytes)
    else if a.name ≠ [] then
      if a.name.length > 255 then .error errStringTooLongMsg
      else .ok ([3, a.name.length] ++ a.name ++ portBytes)
    else .ok ([1, 0, 0, 0, 0] ++ portBytes)

/- ### net address rendering (net.IP.String, JoinHostPort, UDPAddr.String) -/

/-- Dotted-decimal IPv4 text. -/
def dottedV4 (a b c d : Nat) : GoStr :=
  decDigits a ++ [46] ++ decDigits b ++ [46] ++ decDigits c ++ [46] ++ decDigits d

/-- The 16-bit groups of a 16-byte IPv6 address. -/
def groups16 : List Nat → List Nat
  | a :: b :: t => (a * 256 + b) :: groups16 t
  | _ => []

/-- Maximal runs of zero groups, as (start index, length) pairs. -/
def zeroRunsAux : List Nat → Nat → Option (Nat × Nat) → List (Nat × Nat)
  | [], _, none => []
  | [], _, some r => [r]
  | 0 :: t, i, none => zeroRunsAux t (i + 1) (some (i, 1))
  | 0 :: t, i, some (s, n) => zeroRunsAux t (i + 1) (some (s, n + 1))
  | _ :: t, i, none => zeroRunsAux t (i + 1) none
  | _ :: t, i, some r => r :: zeroRunsAux t (i + 1) none

/-- Maximal zero runs of a group list. -/
def zeroRuns (l : List Nat) : List (Nat × Nat) := zeroRunsAux l 0 none

/-- Go's choice of the run to elide with `::`: the leftmost longest run of
at least two zero groups (strictly longer runs win). -/
def bestZeroRun (runs : List (Nat × Nat)) : Option (Nat × Nat) :=
  runs.foldl
    (fun acc r =>
      match acc with
      | none => if 2 ≤ r.2 then some r else none
      | some b => if 2 ≤ r.2 ∧ b.2 < r.2 then some r else some b)
    none

/-- Join group texts with `:`. -/
def joinColon (parts : List GoStr) : GoStr := List.intercalate [58] parts

/-- RFC 5952 text of a 16-byte IPv6 address (lowercase hex groups, longest
zero run elided as `::`). -/
def v6Str (ip : List Nat) : GoStr :=
  let gl := groups16 ip
  match bestZeroRun (zeroRuns gl) with
  | none => joinColon (gl.map hexDigits)
  | some (s, l) =>
    joinColon ((gl.take s).map hexDigits) ++ [58, 58]
      ++ joinColon ((gl.drop (s + l)).map hexDigits)

/-- `net.IP.String`: `<nil>` for an empty IP, dotted decimal for a 4-byte
form, `?` plus hex for unusual lengths, RFC 5952 for 16 bytes. -/
def ipStringGo (ip : List Nat) : GoStr :=
  if ip.length = 0 then gs (r"<nil>")
  else
    match to4 ip with
    | some [a, b, c, d] => dottedV4 a b c d
    | _ => if ip.length ≠ 16 then [63] ++ hexAll ip else v6Str ip

/-- `net.JoinHostPort`: bracket the host when it contains a colon. -/
def goJoinHostPort (host port : GoStr) : GoStr :=
  if host.contains 58 then [91] ++ host ++ [93, 58] ++ port
  else host ++ [58] ++ port

/-- `address.Address()`: prefer the IP when set, else the name, joined
with the decimal port. -/
def addressAddress (a : SockAddr) : GoStr :=
  if a.ip.length ≠ 0 then goJoinHostPort (ipStringGo a.ip) (decDigits a.port)
  else goJoinHostPort a.name (decDigits a.port)

/-- `net.UDPAddr` (zone-less): the latched relay addresses. -/
structure GoUDPAddr where
  ip : List Nat
  port : Nat
deriving DecidableEq

/-- `net.UDPAddr.String` (empty zone): an empty IP renders as the empty
host (`ipEmptyString`), otherwise `net.IP.String`, joined with the port. -/
def udpAddrString (a : GoUDPAddr) : GoStr :=
  goJoinHostPort (if a.ip.length = 0 then [] else ipStringGo a.ip) (decDigits a.port)

/- ### net.SplitHostPort, strconv.Atoi, net.ParseIP -/

/-- Index of the last occurrence of byte `c`. -/
def lastIdxByte (s : GoStr) (c : Nat) : Option Nat :=
  match s with
  | [] => none
  | b :: t =>
    match lastIdxByte t c with
    | some i => some (i + 1)
    | none => if b = c then some 0 else none

/-- Index of the first occurrence of byte `c`. -/
def idxByte (s : GoStr) (c : Nat) : Option Nat :=
  match s with
  | [] => none
  | b :: t => if b = c then some 0 else (idxByte t c).map (· + 1)

def missingPortMsg : GoStr := gs (r"missing port in address")
def tooManyColonsMsg : GoStr := gs (r"too many colons in address")

/-- `net.SplitHostPort`: split on the last colon, with `[host]:port`
bracket handling and the bracket sanity checks of the Go source. -/
def goSplitHostPort (hp : GoStr) : Except GoStr (GoStr × GoStr) :=
  match lastIdxByte hp 58 with
  | none => .error missingPortMsg
  | some i =>
    let bracketed : Except GoStr (GoStr × Nat × Nat) :=
      if hp.headD 0 = 91 then
        match idxByte hp 93 with
        | none => .error (gs (r"missing close bracket in address"))
        | some e =>
          if e + 1 = hp.length then .error missingPortMsg
          else if e + 1 = i then .ok (hp.drop 1 |>.take (e - 1), 1, e + 1)
          else if hp.getD (e + 1) 0 = 58 then .error tooManyColonsMsg
          else .error missingPortMsg
      else
        let host := hp.take i
        if host.contains 58 then .error tooManyColonsMsg
        else .ok (host, 0, 0)
    match bracketed with
    | .error e => .error e
    | .ok (host, j, k) =>
      if (hp.drop j).contains 91 then .error (gs (r"unexpected open bracket in address"))
      else if (hp.drop k).contains 93 then .error (gs (r"unexpected close bracket in address"))
      else .ok (host, hp.drop (i + 1))

def atoiErrMsg : GoStr := gs (r"invalid syntax")

/-- Decimal value of a digit string. -/
def decVal (digits : GoStr) : Nat := digits.foldl (fun a d => a * 10 + (d - 48)) 0

/-- `strconv.Atoi`: optional sign then decimal digits.  64-bit overflow is
not modelled (the only caller range-checks the result against 65535). -/
def goAtoi (s : GoStr) : Except GoStr Int :=
  match s with
  | [] => .error atoiErrMsg
  | c :: rest =>
    let neg := c = 45
    let digits := if c = 45 ∨ c = 43 then rest else s
    if digits = [] then .error atoiErrMsg
    else if digits.all (fun d => decide (48 ≤ d ∧ d ≤ 57)) then
      .ok (if neg then -(decVal digits : Int) else (decVal digits : Int))
    else .error atoiErrMsg

/-- `splitHostPort` of the SOCKS5 engine: `net.SplitHostPort`, then
`strconv.Atoi`, then the [0, 65535] range check. -/
def splitHostPortR (addr : GoStr) : Except GoStr (GoStr × Int) :=
  match goSplitHostPort addr with
  | .error e => .error e
  | .ok (host, port) =>
    match goAtoi port with
    | .error e => .error e
    | .ok portnum =>
      if 0 > portnum ∨ portnum > 0xffff then
        .error (gs (r"port number out of range ") ++ port)
      else .ok (host, portnum)

/-- Split a byte list on every occurrence of byte `c`. -/
def splitOnByte (c : Nat) : GoStr → List GoStr
  | [] => [[]]
  | b :: t =>
    if b = c then [] :: splitOnByte c t
    else
      match splitOnByte c t with
      | h :: r => (b :: h) :: r
      | [] => [[b]]

/-- One dotted-quad field: 1-3 decimal digits, value at most 255, no
leading zero (Go 1.17 semantics of `net.ParseIP`). -/
def parseDecField (f : GoStr) : Option Nat :=
  if f = [] then none
  else if 1 < f.length ∧ f.headD 0 = 48 then none
  else if f.all (fun d => decide (48 ≤ d ∧ d ≤ 57)) then
    if decVal f ≤ 255 then some (decVal f) else none
  else none

/-- `net.ParseIP` on a dotted-quad; as in Go, an IPv4 literal parses to
the 16-byte IPv4-in-IPv6 form. -/
def parseV4Str (s : GoStr) : Option (List Nat) :=
  match (splitOnByte 46 s).mapM parseDecField with
  | some [a, b, c, d] => some (v4InV6Marker ++ [a, b, c, d])
  | _ => none

/-- One IPv6 group: 1-4 lowercase/uppercase hex digits. -/
def parseHexField (f : GoStr) : Option Nat :=
  if f = [] ∨ 4 < f.length then none
  else if f.all (fun d => decide ((48 ≤ d ∧ d ≤ 57) ∨ (97 ≤ d ∧ d ≤ 102) ∨ (65 ≤ d ∧ d ≤ 70))) then
    some (f.foldl
      (fun a d => a * 16 + (if d ≤ 57 then d - 48 else if d ≤ 70 then d - 55 else d - 87)) 0)
  else none

/-- Locate the first `::`, returning the text on each side. -/
def findDoubleColon : GoStr → Option (GoStr × GoStr)
  | [] => none
  | [_] => none
  | 58 :: 58 :: t => some ([], t)
  | c :: t => (findDoubleColon t).map (fun p => (c :: p.1, p.2))

/-- One side of a (possibly elided) IPv6 literal: colon-separated hex
groups, the last of which may be an embedded dotted-quad (two groups). -/
def parseV6Fields : List GoStr → Option (List Nat)
  | [] => some []
  | [f] =>
    if f.contains 46 then (parseV4Str f).map (fun ip => groups16 (ip.drop 12))
    else (parseHexField f).map (fun g => [g])
  | f :: rest =>
    match parseHexField f, parseV6Fields rest with
    | some g, some tl => some (g :: tl)
    | _, _ => none

/-- One side of an IPv6 literal as 16-bit groups (empty side allowed). -/
def parseV6Side (s : GoStr) : Option (List Nat) :=
  if s = [] then some [] else parseV6Fields (splitOnByte 58 s)

/-- Bytes of a group list. -/
def bytesOfGroups (gl : List Nat) : List Nat :=
  gl.flatMap (fun g => [g / 256 % 256, g % 256])

/-- `net.ParseIP` on an IPv6 literal: at most one `::`, which must elide
at least one zero group; without `::` exactly eight groups. -/
def parseV6Str (s : GoStr) : Option (List Nat) :=
  match findDoubleColon s with
  | some (l, rside) =>
    if (findDoubleColon rside).isSome then none
    else
      match parseV6Side l, parseV6Side rside with
      | some lg, some rg =>
        if 8 ≤ lg.length + rg.length then none
        else some (bytesOfGroups (lg ++ List.replicate (8 - lg.length - rg.length) 0 ++ rg))
      | _, _ => none
  | none =>
    match parseV6Side s with
    | some g => if g.length = 8 then some (bytesOfGroups g) else none
    | none => none

/-- `net.ParseIP`: the first `.` or `:` decides the family. -/
def goParseIP (s : GoStr) : Option (List Nat) :=
  match s.find? (fun c => c == 46 || c == 58) with
  | some c => if c = 46 then parseV4Str s else parseV6Str s
  | none => none

/-- `writeAddr(w, ...)` where `w` already holds `init`: appends the
address encoding (used by `writeAddrWithStr` below). -/
def writeAddrAppend (init : List Nat) (addr : Option SockAddr) : Except GoStr (List Nat) :=
  match writeAddrBytes addr with
  | .error e => .error e
  | .ok bs => .ok (init ++ bs)

/-- `writeAddrWithStr`: split the `host:port` text, then encode an IP
literal as an IP address and anything else as an FQDN (the validated port
is within [0, 65535], so `Int.toNat` is exact). -/
def writeAddrWithStr (init : List Nat) (addr : GoStr) : Except GoStr (List Nat) :=
  match splitHostPortR addr with
  | .error e => .error e
  | .ok (host, port) =>
    match goParseIP host with
    | some ip => writeAddrAppend init (some ⟨[], ip, port.toNat⟩)
    | none => writeAddrAppend init (some ⟨host, [], port.toNat⟩)

/- ### The SOCKS5 UDP relay connection (udpCustomConn) -/

def maxUdpPacket : Nat := 65535 - 28

/-- The mutable relay state touched by `Read` and `asyncReadPackets`:
the write-once latched source and target addresses and the `sync.Once`
flag behind the first-read signal. -/
structure UdpSt where
  sourceAddr : Option GoUDPAddr
  targetAddr : Option GoUDPAddr
  firstReadDone : Bool
deriving DecidableEq

/-- One record of the relay's packet queue (`readStruct`). -/
structure ReadStruct where
  data : List Nat
  rerr : Option GoStr
deriving DecidableEq

/-- One iteration of the `asyncReadPackets` goroutine: a `ReadFrom`
result either enqueues the error (and the loop breaks), or latches the
source address when it is still nil and enqueues the datagram. -/
def asyncReadStep (st : UdpSt) (recv : Except GoStr (List Nat × GoUDPAddr)) :
    UdpSt × ReadStruct :=
  match recv with
  | .error e => (st, ⟨[], some e⟩)
  | .ok (data, addr) =>
    (if st.sourceAddr = none then {st with sourceAddr := some addr} else st,
      ⟨data, none⟩)

def packetTooSmallMsg : GoStr := gs (r"received packet too small")
def ignoreNonTargetMsg : GoStr := gs (r"ignore non-target addresses ")

/-- Equality on modelled fallible results is decidable (used to evaluate
the concrete witnesses below). -/
instance {ε α : Type} [DecidableEq ε] [DecidableEq α] : DecidableEq (Except ε α) := fun x y =>
  match x, y with
  | .ok a, .ok b =>
    if h : a = b then isTrue (by rw [h]) else isFalse (fun he => by cases he; exact h rfl)
  | .error a, .error b =>
    if h : a = b then isTrue (by rw [h]) else isFalse (fun he => by cases he; exact h rfl)
  | .ok _, .error _ => isFalse (fun he => by cases he)
  | .error _, .ok _ => isFalse (fun he => by cases he)

/-- The outcome of one `udpCustomConn.Read`: the returned
(count, error) pair — with the bytes actually copied into the caller's
buffer standing in for the buffer — the state after the call, and whether
the one-shot first-read signal fired. -/
structure UdpReadOut where
  res : Except GoStr (Nat × List Nat)
  st : UdpSt
  fired : Bool
deriving DecidableEq

/-- `udpCustomConn.Read` for a caller buffer of length `k`, consuming one
queue record: propagate a queued error; reject packets shorter than 3
bytes; parse the address triple at offset 3; latch the target (as a
`net.UDPAddr` built from the parsed IP and port) when it is still nil;
reject a packet whose parsed address renders differently from the latched
target; otherwise copy the payload (truncated to the buffer) and return
the full payload length. -/
def udpRead (st : UdpSt) (read : ReadStruct) (k : Nat) : UdpReadOut :=
  match read.rerr with
  | some e => ⟨.error e, st, false⟩
  | none =>
    if read.data.length < 3 then ⟨.error packetTooSmallMsg, st, false⟩
    else
      match readAddrL (read.data.drop 3) with
      | .error e => ⟨.error e, st, false⟩
      | .ok (tAddr, rest) =>
        let latched : GoUDPAddr :=
          match st.targetAddr with
          | none => ⟨tAddr.ip, tAddr.port⟩
          | some t => t
        let st1 : UdpSt := {st with targetAddr := some latched}
        if addressAddress tAddr ≠ udpAddrString latched then
          ⟨.error (ignoreNonTargetMsg ++ addressAddress tAddr), st1, false⟩
        else
          ⟨.ok (rest.length, rest.take k), {st1 with firstReadDone := true},
            !st1.firstReadDone⟩

/-- The state `udpCustomConn.Write` touches: the lazily-built reply
marker bytes and the latched target address.  (`cc.buf` is the relay's
fixed internal array; no statement in the package ever writes to it, so
it is identically zero and is modelled implicitly.) -/
structure UdpWriteSt where
  replyStart : Option (List Nat)
  targetAddr : GoUDPAddr
deriving DecidableEq

/-- The visible outcome of one `udpCustomConn.Write`. -/
inductive WriteOut where
  | ok (n : Nat) (callerBuf : List Nat)
  | err (e : GoStr)
  | panics
deriving DecidableEq

/-- `udpCustomConn.Write b`: build and cache the reply marker (three zero
bytes followed by the encoded target address) when missing, then execute
`copy(b, cc.buf[len(marker) : len(marker)+len(b)])` — which overwrites the
caller's slice with zeros from the never-written internal buffer (a panic
when the slice bounds exceed the buffer) — and return `len(b)`.  The last
component lists the datagrams the call hands to the UDP socket: the body
contains no `WriteTo`, so it is always empty. -/
def udpWrite (st : UdpWriteSt) (b : List Nat) :
    WriteOut × UdpWriteSt × List (List Nat × GoUDPAddr) :=
  let markerE : Except GoStr (List Nat) :=
    match st.replyStart with
    | some p => .ok p
    | none => writeAddrWithStr [0, 0, 0] (udpAddrString st.targetAddr)
  match markerE with
  | .error e => (.err e, st, [])
  | .ok p =>
    let st1 : UdpWriteSt := {st with replyStart := some p}
    if maxUdpPacket < p.length + b.length then (.panics, st1, [])
    else (.ok b.length (List.replicate b.length 0), st1, [])

/-- The possible outcomes of `udpCustomConn.Close`. -/
inductive CloseOutcome where
  | returned (udpClosed : Bool) (tcpClosed : Bool) (err : Option GoStr)
  | deadlock
  | fuelOut
deriving DecidableEq

/-- `udpCustomConn.Close`: acquire the (non-reentrant) mutex, then
`udpErr := cc.Close()` — the method calls itself — then close the
associated TCP stream and return the first non-nil error.  `lockHeld`
records whether this very mutex is already held by the calling chain
(`Lock` on a held `sync.Mutex` blocks forever: `.deadlock`), and the fuel
bounds the recursion depth so the model is total; no fuel makes the body
reach the `.returned` continuation. -/
def udpCustomConnClose (tcpCloseErr : Option GoStr) (lockHeld : Bool) : Nat → CloseOutcome
  | 0 => .fuelOut
  | fuel + 1 =>
    if lockHeld then .deadlock
    else
      match udpCustomConnClose tcpCloseErr true fuel with
      | .returned u _ udpErr =>
        .returned u true (match udpErr with | some e => some e | none => tcpCloseErr)
      | r => r

/- ### pkg/http/common.go: customConn -/

/-- The wrapped client stream for the HTTP non-CONNECT handler path:
the `sync.Once` flag, the pending serialized request bytes, and the
underlying raw stream. -/
structure HttpConnSt where
  onceDone : Bool
  initialData : List Nat
  stream : List Nat
deriving DecidableEq

/-- `customConn.Read` for a caller buffer of length `k`; `reqBytes` is the
serialization `req.Write` produces (its error path is not modelled: a
request parsed by `http.ReadRequest` re-serializes without error).  On
the first call the serialized request is stored; while stored data is
non-empty one `copy` into the caller's buffer is served and the stored
data is then dropped entirely (`c.initialData = nil`); otherwise the
underlying stream is read.  Returns the delivered bytes (the returned
count is their length) and the new state. -/
def customConnRead (reqBytes : List Nat) (st : HttpConnSt) (k : Nat) :
    List Nat × HttpConnSt :=
  let st1 := if st.onceDone then st else {st with onceDone := true, initialData := reqBytes}
  if 0 < st1.initialData.length then
    (st1.initialData.take k, {st1 with initialData := []})
  else
    (st1.stream.take k, {st1 with stream := st1.stream.drop k})

/- ### pkg/mixed: SwitchConn and the protocol probe -/

/-- `bufio.NewReader`'s default buffer size. -/
def bufioSize : Nat := 4096

/-- A `bufio.Reader` over a byte stream: `buf`/`pos` are the fill buffer
and read position, `src` the unread part of the underlying stream.  The
underlying stream is modelled as returning all currently available bytes
(up to the requested amount) in one call; the dispatch property below is
insensitive to the actual chunking. -/
structure BufReader where
  buf : List Nat
  pos : Nat
  src : List Nat
deriving DecidableEq

/-- `bufio.Reader.Read` with a buffer of length `k`: serve buffered bytes
when present; on an empty fill buffer, EOF on an exhausted stream, a
direct large read when `k` is at least the buffer size, else fill the
buffer from the stream and serve from it. -/
def bufRead (r : BufReader) (k : Nat) : Except GoStr (List Nat × BufReader) :=
  if k = 0 then .ok ([], r)
  else if r.pos < r.buf.length then
    let chunk := (r.buf.drop r.pos).take k
    .ok (chunk, {r with pos := r.pos + chunk.length})
  else if r.src = [] then .error eofMsg
  else if bufioSize ≤ k then .ok (r.src.take k, ⟨[], 0, r.src.drop k⟩)
  else
    let fill := r.src.take bufioSize
    let chunk := fill.take k
    .ok (chunk, ⟨fill, chunk.length, r.src.drop bufioSize⟩)

/-- `bufio.Reader.UnreadByte` in the only situation the multiplexer uses
it (immediately after a successful read): step the read position back. -/
def bufUnreadByte (r : BufReader) : Except GoStr BufReader :=
  if r.pos = 0 then .error (gs (r"bufio: invalid use of UnreadByte"))
  else .ok {r with pos := r.pos - 1}

/-- The bytes an engine reading through the `SwitchConn` will see. -/
def bufRemaining (r : BufReader) : List Nat := r.buf.drop r.pos ++ r.src

/-- The three protocol engines of the multiplexer. -/
inductive Engine where
  | socks5
  | socks4
  | http
deriving DecidableEq

/-- The dispatch rule of `Proxy.handleConnection`. -/
def engineOf (b : Nat) : Engine :=
  if b = 5 then .socks5 else if b = 4 then .socks4 else .http

/-- `Proxy.handleConnection` up to the dispatch: wrap the stream in a
`SwitchConn` (fresh `bufio.Reader`), read one byte, unread it, and select
the engine from that byte.  Returns the chosen engine and the reader
state handed to it. -/
def handleConnection (stream : List Nat) : Except GoStr (Engine × BufReader) :=
  let sc : BufReader := ⟨[], 0, stream⟩
  match bufRead sc 1 with
  | .error e => .error e
  | .ok (bytes, sc1) =>
    match bufUnreadByte sc1 with
    | .error e => .error e
    | .ok sc2 => .ok (engineOf (bytes.headD 0), sc2)

/- ### Helper lemmas -/

/-- Reading exactly the length of a leading block returns that block. -/
theorem readN_exact (pre rest : List Nat) : readN pre.length (pre ++ rest) = .ok (pre, rest) := by
  unfold readN
  rw [if_pos (by simp)]
  rw [List.take_left, List.drop_left]

/-- `FirstError` in terms of the first non-nil slot. -/
theorem firstError_find_char (l : List (Option GoStr)) :
    tunnelErrFirstError l =
      match l.find? (fun e => e.isSome) with
      | some e => if isClosedConnError e then none else e
      | none => none := by
  induction l with
  | nil => rfl
  | cons e rest ih =>
    cases e with
    | none => simpa [tunnelErrFirstError, List.find?] using ih
    | some v => simp [tunnelErrFirstError, List.find?]

/- ### Claim theorems -/

/-- Claim C1 (amended): `Tunnel` closes both streams once either copy
direction completes or the context is cancelled, and returns a value
determined by the first non-nil entry among [copy error 0, copy error 1,
close(source) error, close(destination) error, cancellation cause with
`context.Canceled` replaced by nil]: nil when that first non-nil entry is
a "use of closed network connection" variant (later entries are never
consulted), and that entry otherwise.  In particular, if every observed
error is a closed-connection variant or context cancellation, the result
is nil. -/
theorem C1_tunnel_error_amended (e0 e1 e2 e3 : Option GoStr) (c : CtxDoneErr) :
    tunnelResult e0 e1 e2 e3 c =
      match (tunnelSlots e0 e1 e2 e3 c).find? (fun e => e.isSome) with
      | some e => if isClosedConnError e then none else e
      | none => none :=
  firstError_find_char (tunnelSlots e0 e1 e2 e3 c)

/-- Claim C1 counterexample: when the first copy error is a
closed-connection variant and the second copy error is a genuine error
("connection reset by peer"), the code returns nil, while the claim's
"first non-closed-connection error among the two copy errors, the two
close errors, and the cancellation cause" is that genuine error. -/
theorem C1_tunnel_error_cex :
    tunnelResult (some (gs (r"read tcp 127.0.0.1:1080: use of closed network connection")))
        (some (gs (r"read: connection reset by peer"))) none none CtxDoneErr.canceled = none
    ∧ specFirstNonClosed
        (tunnelSlots (some (gs (r"read tcp 127.0.0.1:1080: use of closed network connection")))
          (some (gs (r"read: connection reset by peer"))) none none CtxDoneErr.canceled)
      = some (gs (r"read: connection reset by peer"))
    ∧ isClosedConnError (some (gs (r"read: connection reset by peer"))) = false := by
  decide

/-- Claim C5: closing the UDP relay never terminates, let alone closes
anything.  The body's first statement re-enters `Close` itself, which
blocks forever re-acquiring the already-held non-reentrant mutex (and
would recurse forever even without the lock): with any fuel at least 2
the model deadlocks, and for no fuel and no lock state does it reach the
`returned` outcome in which the sockets get closed. -/
theorem C5_close_never_returns :
    (∀ tcpErr fuel, 2 ≤ fuel → udpCustomConnClose tcpErr false fuel = CloseOutcome.deadlock)
    ∧ (∀ tcpErr lockHeld fuel u t e,
        udpCustomConnClose tcpErr lockHeld fuel ≠ CloseOutcome.returned u t e) := by
  constructor
  · intro tcpErr fuel h
    obtain ⟨n, rfl⟩ : ∃ n, fuel = n + 2 := ⟨fuel - 2, by omega⟩
    rfl
  · intro tcpErr lockHeld fuel
    induction fuel generalizing lockHeld with
    | zero => intro u t e; simp [udpCustomConnClose]
    | succ n ih =>
      intro u t e
      unfold udpCustomConnClose
      by_cases hl : lockHeld
      · simp [hl]
      · simp only [hl, if_false]
        cases hr : udpCustomConnClose tcpErr true n with
        | returned a b c => exact absurd hr (fun hh => ih true a b c hh)
        | deadlock => simp [hr]
        | fuelOut => simp [hr]

/-- Claim C5 witness: with both close errors nil and fuel 3, `Close`
deadlocks and does not return. -/
theorem C5_close_never_returns_witness :
    udpCustomConnClose none false 3 = CloseOutcome.deadlock
    ∧ udpCustomConnClose none false 3 ≠ CloseOutcome.returned true true none :=
  ⟨C5_close_never_returns.1 none 3 (by decide),
   C5_close_never_returns.2 none false 3 true true none⟩

/-- Claim C6 counterexample: the message "access refused" does not
contain "connection refused" yet maps to 0x05 (the claim prescribes 0x04
for it); the message "refused: network is unreachable" contains
"network is unreachable" yet maps to 0x05, not 0x03. -/
theorem C6_reply_cex :
    errToReply (some (gs (r"access refused"))) = connectionRefused
    ∧ goContains (gs (r"access refused")) (gs (r"connection refused")) = false
    ∧ errToReply (some (gs (r"refused: network is unreachable"))) = connectionRefused
    ∧ goContains (gs (r"refused: network is unreachable")) netUnreachableSub = true
    ∧ connectionRefused ≠ hostUnreachable
    ∧ connectionRefused ≠ networkUnreachable := by
  decide

/-- Claim C6 (amended): the dial-side reply mapping yields 0x00 for a nil
error, 0x05 exactly when the message contains the substring "refused"
(checked first), 0x03 exactly when it contains "network is unreachable"
but not "refused", and 0x04 (host unreachable) for every other non-nil
error. -/
theorem C6_reply_amended :
    errToReply none = successReply
    ∧ ∀ m, (errToReply (some m) = connectionRefused ↔ goContains m refusedSub = true)
      ∧ (errToReply (some m) = networkUnreachable ↔
          (goContains m refusedSub = false ∧ goContains m netUnreachableSub = true))
      ∧ (errToReply (some m) = hostUnreachable ↔
          (goContains m refusedSub = false ∧ goContains m netUnreachableSub = false)) := by
  refine ⟨rfl, fun m => ?_⟩
  unfold errToReply
  cases h1 : goContains m refusedSub <;> cases h2 : goContains m netUnreachableSub <;>
    simp [h1, h2, connectionRefused, networkUnreachable, hostUnreachable]

/-- Claim C2: a theorem evaluating the egress path of the code.  Whenever
the reply marker is already cached (any later Write; the first Write only
adds the cache step), `udpCustomConn.Write b` hands no datagram whatsoever
to the UDP socket, reports success with count `len(b)`, and overwrites the
caller's payload with zeros from the relay's never-written internal
buffer — instead of sending `00 00 00 || encoded target || payload` to the
latched source address as the claim states. -/
theorem C2_write_sends_nothing (st : UdpWriteSt) (b marker : List Nat)
    (hm : st.replyStart = some marker) (hlen : marker.length + b.length ≤ maxUdpPacket) :
    udpWrite st b = (.ok b.length (List.replicate b.length 0), st, []) := by
  obtain ⟨rs, ta⟩ := st
  simp only at hm
  subst hm
  simp only [udpWrite]
  rw [if_neg (by omega)]

/-- Claim C2 witness: with target 1.2.3.4:53 latched and the marker
cached, writing the payload `[0xAB, 0xCD]` sends nothing and zeroes the
caller's two bytes. -/
theorem C2_write_sends_nothing_witness :
    udpWrite ⟨some [0, 0, 0, 1, 1, 2, 3, 4, 0, 53], ⟨[1, 2, 3, 4], 53⟩⟩ [171, 205]
      = (.ok 2 (List.replicate 2 0),
          ⟨some [0, 0, 0, 1, 1, 2, 3, 4, 0, 53], ⟨[1, 2, 3, 4], 53⟩⟩, []) :=
  C2_write_sends_nothing ⟨some [0, 0, 0, 1, 1, 2, 3, 4, 0, 53], ⟨[1, 2, 3, 4], 53⟩⟩
    [171, 205] [0, 0, 0, 1, 1, 2, 3, 4, 0, 53] rfl (by decide)

/-- Claim C3: the relay's latched addresses are write-once.  (1) A latched
source survives every further receive step; (2) a latched target survives
every further `Read`; (3) the first successfully parsed datagram latches
the target from its parsed IP and port; (4) once a target is latched,
a datagram whose parsed address differs from it (address comparison being
the rendered `host:port` text, as in the source) is rejected with the
"ignore non-target addresses" error and the state is left unchanged. -/
theorem C3_latch_write_once :
    (∀ st recv s, st.sourceAddr = some s → ((asyncReadStep st recv).1).sourceAddr = some s)
    ∧ (∀ st read k t, st.targetAddr = some t → ((udpRead st read k).st).targetAddr = some t)
    ∧ (∀ st read k a rest, st.targetAddr = none → read.rerr = none →
        ¬ read.data.length < 3 → readAddrL (read.data.drop 3) = .ok (a, rest) →
        ((udpRead st read k).st).targetAddr = some ⟨a.ip, a.port⟩)
    ∧ (∀ st read k t a rest, st.targetAddr = some t → read.rerr = none →
        ¬ read.data.length < 3 → readAddrL (read.data.drop 3) = .ok (a, rest) →
        addressAddress a ≠ udpAddrString t →
        udpRead st read k = ⟨.error (ignoreNonTargetMsg ++ addressAddress a), st, false⟩) := by
  refine ⟨?_, ?_, ?_, ?_⟩
  · intro st recv s h
    cases recv with
    | error e => simpa [asyncReadStep] using h
    | ok p => simp [asyncReadStep, h]
  · intro st read k t h
    unfold udpRead
    split
    · exact h
    · split
      · exact h
      · split
        · exact h
        · simp only [h]
          split <;> simp
  · intro st read k a rest h hre hlen heq
    unfold udpRead
    rw [hre]
    simp only []
    rw [if_neg hlen]
    simp only [heq, h]
    split <;> simp
  · intro st read k t a rest h hre hlen heq hne
    obtain ⟨s1, s2, s3⟩ := st
    simp only at h
    subst h
    unfold udpRead
    rw [hre]
    simp only []
    rw [if_neg hlen]
    simp only [heq]
    rw [if_pos hne]

/-- Claim C3 witness: a concrete run of each conjunct; the mismatching
datagram carries target 9.9.9.9:7 against latched target 1.2.3.4:53. -/
theorem C3_latch_write_once_witness :
    ((asyncReadStep ⟨some ⟨[9, 9, 9, 9], 7⟩, none, false⟩
        (.ok ([1], ⟨[8, 8, 8, 8], 5⟩))).1).sourceAddr = some ⟨[9, 9, 9, 9], 7⟩
    ∧ ((udpRead ⟨none, some ⟨[1, 2, 3, 4], 53⟩, false⟩
        ⟨[0, 0, 0, 1, 9, 9, 9, 9, 0, 7], none⟩ 4).st).targetAddr = some ⟨[1, 2, 3, 4], 53⟩
    ∧ ((udpRead ⟨none, none, false⟩
        ⟨[0, 0, 0, 1, 9, 9, 9, 9, 0, 7], none⟩ 4).st).targetAddr = some ⟨[9, 9, 9, 9], 7⟩
    ∧ udpRead ⟨none, some ⟨[1, 2, 3, 4], 53⟩, false⟩ ⟨[0, 0, 0, 1, 9, 9, 9, 9, 0, 7], none⟩ 4
      = ⟨.error (ignoreNonTargetMsg ++ addressAddress ⟨[], [9, 9, 9, 9], 7⟩),
          ⟨none, some ⟨[1, 2, 3, 4], 53⟩, false⟩, false⟩ :=
  ⟨C3_latch_write_once.1 _ _ _ rfl,
   C3_latch_write_once.2.1 _ _ _ _ rfl,
   C3_latch_write_once.2.2.1 _ _ _ ⟨[], [9, 9, 9, 9], 7⟩ [] rfl rfl (by decide) rfl,
   C3_latch_write_once.2.2.2 _ _ _ _ ⟨[], [9, 9, 9, 9], 7⟩ [] rfl rfl (by decide) rfl (by decide)⟩

/-- Claim C4 counterexample: a datagram with FRAG byte 1 (offset 2),
addressed to the latched target 1.2.3.4:53, is not dropped: its payload
`[99]` is delivered with success. -/
theorem C4_frag_cex :
    (udpRead ⟨none, some ⟨[1, 2, 3, 4], 53⟩, true⟩
        ⟨[0, 0, 1, 1, 1, 2, 3, 4, 0, 53, 99], none⟩ 10).res = .ok (1, [99])
    ∧ ([0, 0, 1, 1, 1, 2, 3, 4, 0, 53, 99].getD 2 0 ≠ 0) := by
  decide

/-- Claim C4 (amended): the relay rejects packets shorter than 3 bytes
with the "received packet too small" error and parses the address triple
starting at offset 3, but it never inspects the first three header bytes
(RSV and FRAG): a packet with a non-zero FRAG byte is processed exactly
like the same packet with any other header bytes, not dropped. -/
theorem C4_ingress_amended :
    (∀ st k a b c a2 b2 c2 rest,
        udpRead st ⟨a :: b :: c :: rest, none⟩ k = udpRead st ⟨a2 :: b2 :: c2 :: rest, none⟩ k)
    ∧ (∀ st k, udpRead st ⟨[], none⟩ k = ⟨.error packetTooSmallMsg, st, false⟩)
    ∧ (∀ st k x, udpRead st ⟨[x], none⟩ k = ⟨.error packetTooSmallMsg, st, false⟩)
    ∧ (∀ st k x y, udpRead st ⟨[x, y], none⟩ k = ⟨.error packetTooSmallMsg, st, false⟩) := by
  refine ⟨?_, fun st k => rfl, fun st k x => rfl, fun st k x y => rfl⟩
  intro st k a b c a2 b2 c2 rest
  unfold udpRead
  rw [if_neg (by simp), if_neg (by simp)]
  rfl

/-- Claim C10: when the caller's buffer (length `k`) is shorter than the
payload of a matching datagram, `Read` still returns the full payload
length as its count — exceeding both the buffer length and the
`take k` bytes actually copied; the excess bytes appear in neither the
result nor the state, i.e. they are discarded. -/
theorem C10_read_count_exceeds (st : UdpSt) (read : ReadStruct) (k : Nat) (t : GoUDPAddr)
    (a : SockAddr) (rest : List Nat)
    (h : st.targetAddr = some t) (hre : read.rerr = none)
    (hlen : ¬ read.data.length < 3) (heq : readAddrL (read.data.drop 3) = .ok (a, rest))
    (hmatch : addressAddress a = udpAddrString t) (hk : k < rest.length) :
    (udpRead st read k).res = .ok (rest.length, rest.take k)
    ∧ k < rest.length ∧ (rest.take k).length = k := by
  refine ⟨?_, hk, by simp [List.length_take]; omega⟩
  unfold udpRead
  rw [hre]
  simp only []
  rw [if_neg hlen]
  simp only [heq, h]
  rw [if_neg (by simp [hmatch])]

/-- Claim C10 witness: payload `[99, 98, 97]` against a 1-byte buffer:
the returned count is 3 while only `[99]` is copied. -/
theorem C10_read_count_exceeds_witness :
    (udpRead ⟨none, some ⟨[1, 2, 3, 4], 53⟩, true⟩
        ⟨[0, 0, 0, 1, 1, 2, 3, 4, 0, 53, 99, 98, 97], none⟩ 1).res
      = .ok ([99, 98, 97].length, [99, 98, 97].take 1)
    ∧ 1 < [99, 98, 97].length ∧ ([99, 98, 97].take 1).length = 1 :=
  C10_read_count_exceeds ⟨none, some ⟨[1, 2, 3, 4], 53⟩, true⟩
    ⟨[0, 0, 0, 1, 1, 2, 3, 4, 0, 53, 99, 98, 97], none⟩ 1 ⟨[1, 2, 3, 4], 53⟩
    ⟨[], [1, 2, 3, 4], 53⟩ [99, 98, 97] rfl rfl (by decide) rfl (by decide) (by decide)

/-- Claim C8: for every non-empty incoming stream, `handleConnection`
hands the connection to exactly one engine, selected by the first byte
(0x05 SOCKS5, 0x04 SOCKS4, anything else HTTP), and the reader state
given to that engine still yields the whole stream, probe byte included:
the peek does not consume it. -/
theorem C8_dispatch (b : Nat) (rest : List Nat) :
    handleConnection (b :: rest)
      = .ok (engineOf b, ⟨(b :: rest).take bufioSize, 0, (b :: rest).drop bufioSize⟩)
    ∧ bufRemaining ⟨(b :: rest).take bufioSize, 0, (b :: rest).drop bufioSize⟩ = b :: rest
    ∧ (engineOf b = Engine.socks5 ↔ b = 5)
    ∧ (engineOf b = Engine.socks4 ↔ b = 4)
    ∧ (engineOf b = Engine.http ↔ b ≠ 5 ∧ b ≠ 4) := by
  refine ⟨rfl, ?_, ?_, ?_, ?_⟩
  · show List.drop 0 ((b :: rest).take bufioSize) ++ (b :: rest).drop bufioSize = b :: rest
    rw [List.drop_zero, List.take_append_drop]
  · by_cases h5 : b = 5 <;> by_cases h4 : b = 4 <;> simp_all [engineOf]
  · by_cases h5 : b = 5 <;> by_cases h4 : b = 4 <;> simp_all [engineOf]
  · by_cases h5 : b = 5 <;> by_cases h4 : b = 4 <;> simp_all [engineOf]

/-- Claim C9 counterexample: with serialized request bytes `[10, 20]` and
underlying stream `[30]`, a first read into a 1-byte buffer returns `[10]`
and discards the remaining serialized byte 20; a second (larger) read
returns the stream byte `[30]`.  The delivered sequence `[10] ++ [30]`
is not the serialized request followed by stream bytes, refuting full
in-order delivery "regardless of the caller's buffer sizes". -/
theorem C9_http_rewind_cex :
    customConnRead [10, 20] ⟨false, [], [30]⟩ 1 = ([10], ⟨true, [], [30]⟩)
    ∧ customConnRead [10, 20] ⟨true, [], [30]⟩ 5 = ([30], ⟨true, [], []⟩)
    ∧ [10] ++ [30] ≠ [10, 20] ++ [30] := by
  decide

/-- Claim C9 (amended): the first read of the wrapped stream delivers a
prefix of the serialized request bounded by the caller's buffer length
and discards any remainder; every later read falls through to the
underlying raw stream.  The serialized request is delivered in full and
in order exactly when the first read's buffer is at least as long as it
is (third conjunct, buffer length `|request| + m`). -/
theorem C9_http_rewind_amended :
    (∀ reqBytes stream k, customConnRead reqBytes ⟨false, [], stream⟩ k =
        if reqBytes = [] then (stream.take k, ⟨true, [], stream.drop k⟩)
        else (reqBytes.take k, ⟨true, [], stream⟩))
    ∧ (∀ reqBytes stream k, customConnRead reqBytes ⟨true, [], stream⟩ k =
        (stream.take k, ⟨true, [], stream.drop k⟩))
    ∧ (∀ r rs stream m,
        (customConnRead (r :: rs) ⟨false, [], stream⟩ ((r :: rs).length + m)).1 = r :: rs) := by
  refine ⟨?_, ?_, ?_⟩
  · intro reqBytes stream k
    by_cases h : reqBytes = [] <;> simp [customConnRead, h, List.length_pos]
  · intro reqBytes stream k
    simp [customConnRead]
  · intro r rs stream m
    simp [customConnRead, List.take_of_length_le (by simp : (r :: rs).length ≤ (r :: rs).length + m)]

/-- Claim C7: the address codec round-trips.  (a) For every valid IPv4
(4-byte) or IPv6 (16-byte) address and port in [0, 65535], reading back
the bytes `writeAddr` produced yields an address equal to the original —
IP equality being `net.IP.Equal`, which identifies a 4-byte address with
its IPv4-mapped 16-byte form, exactly the normalization `writeAddr`
applies when it serializes a mapped address as IPv4; (b) the same for
every non-empty domain name of at most 255 bytes; (c) writing a name
longer than 255 bytes fails with `errStringTooLong`; (d) parsing a
`host:port` string whose port is outside [0, 65535] fails. -/
theorem C7_codec_roundtrip :
    (∀ ip port, ip.length = 4 ∨ ip.length = 16 → (∀ x ∈ ip, x < 256) → port ≤ 65535 →
      ∃ bs a, writeAddrBytes (some ⟨[], ip, port⟩) = .ok bs
        ∧ readAddrL bs = .ok (a, [])
        ∧ ipEqualGo a.ip ip = true ∧ a.port = port ∧ a.name = [])
    ∧ (∀ nm port, nm ≠ [] → nm.length ≤ 255 → port ≤ 65535 →
      ∃ bs, writeAddrBytes (some ⟨nm, [], port⟩) = .ok bs
        ∧ readAddrL bs = .ok (⟨nm, [], port⟩, []))
    ∧ (∀ nm port, 255 < nm.length →
      writeAddrBytes (some ⟨nm, [], port⟩) = .error errStringTooLongMsg)
    ∧ (∀ s host p n, goSplitHostPort s = .ok (host, p) → goAtoi p = .ok n →
        (n < 0 ∨ 65535 < n) → ∃ e, splitHostPortR s = .error e) := by
  refine ⟨?_, ?_, ?_, ?_⟩
  · intro ip port hlen hbytes hport
    rcases hlen with h4 | h16
    · rcases ip with _ | ⟨b0, _ | ⟨b1, _ | ⟨b2, _ | ⟨b3, _ | ⟨b4, ip⟩⟩⟩⟩⟩ <;>
        try exact absurd h4 (by simp only [List.length_cons, List.length_nil]; omega)
      refine ⟨_, _, rfl, rfl, ?_, ?_, rfl⟩
      · simp [ipEqualGo]
      · show port % 65536 / 256 * 256 + port % 256 = port
        omega
    · rcases ip with _ | ⟨b0, _ | ⟨b1, _ | ⟨b2, _ | ⟨b3, _ | ⟨b4, _ | ⟨b5, _ | ⟨b6, _ | ⟨b7, _ | ⟨b8, _ | ⟨b9, _ | ⟨b10, _ | ⟨b11, _ | ⟨b12, _ | ⟨b13, _ | ⟨b14, _ | ⟨b15, _ | ⟨b16, ip⟩⟩⟩⟩⟩⟩⟩⟩⟩⟩⟩⟩⟩⟩⟩⟩⟩ <;>
        try exact absurd h16 (by simp only [List.length_cons, List.length_nil]; omega)
      by_cases hz : b0 = 0 ∧ b1 = 0 ∧ b2 = 0 ∧ b3 = 0 ∧ b4 = 0 ∧ b5 = 0 ∧ b6 = 0 ∧ b7 = 0
          ∧ b8 = 0 ∧ b9 = 0 ∧ b10 = 255 ∧ b11 = 255
      · obtain ⟨rfl, rfl, rfl, rfl, rfl, rfl, rfl, rfl, rfl, rfl, rfl, rfl⟩ := hz
        refine ⟨_, _, rfl, rfl, ?_, ?_, rfl⟩
        · simp [ipEqualGo, v4InV6Marker]
        · show port % 65536 / 256 * 256 + port % 256 = port
          omega
      · have ht4 : to4 [b0, b1, b2, b3, b4, b5, b6, b7, b8, b9, b10, b11, b12, b13, b14, b15]
            = none := by
          unfold to4
          rw [if_neg (by simp only [List.length_cons, List.length_nil]; omega)]
          rw [if_neg ?hc]
          case hc =>
            intro hc
            apply hz
            obtain ⟨-, hall, h10, h11⟩ := hc
            have hall2 : ([b0, b1, b2, b3, b4, b5, b6, b7, b8, b9] : List Nat).all
                (fun x => decide (x = 0)) = true := hall
            simp only [List.all_cons, List.all_nil, Bool.and_eq_true, decide_eq_true_eq,
              and_true] at hall2
            obtain ⟨z0, z1, z2, z3, z4, z5, z6, z7, z8, z9⟩ := hall2
            exact ⟨z0, z1, z2, z3, z4, z5, z6, z7, z8, z9, h10, h11⟩
        have hw : writeAddrBytes (some ⟨[], [b0, b1, b2, b3, b4, b5, b6, b7, b8, b9, b10, b11, b12, b13, b14, b15], port⟩)
            = .ok ([4] ++ [b0, b1, b2, b3, b4, b5, b6, b7, b8, b9, b10, b11, b12, b13, b14, b15]
                ++ [port % 65536 / 256, port % 256]) := by
          simp only [writeAddrBytes]
          rw [if_pos (by simp)]
          rw [ht4]
          rfl
        refine ⟨_, _, hw, rfl, ?_, ?_, rfl⟩
        · simp [ipEqualGo]
        · show port % 65536 / 256 * 256 + port % 256 = port
          omega
  · intro nm port hne hlen hport
    have harith : port % 65536 / 256 * 256 + port % 256 = port := by omega
    refine ⟨[3, nm.length] ++ nm ++ [port % 65536 / 256, port % 256], ?_, ?_⟩
    · simp only [writeAddrBytes]
      rw [if_neg (by simp)]
      rw [if_pos hne, if_neg (by omega)]
    · calc readAddrL ([3, nm.length] ++ nm ++ [port % 65536 / 256, port % 256])
          = (match readN nm.length (nm ++ [port % 65536 / 256, port % 256]) with
             | .error e => (.error e : Except GoStr (SockAddr × List Nat))
             | .ok (nm2, s3) => readPortInto ⟨nm2, [], 0⟩ s3) := rfl
        _ = readPortInto ⟨nm, [], 0⟩ [port % 65536 / 256, port % 256] := by rw [readN_exact]
        _ = .ok (⟨nm, [], port % 65536 / 256 * 256 + port % 256⟩, []) := rfl
        _ = .ok (⟨nm, [], port⟩, []) := by rw [harith]
  · intro nm port hlen
    have hne : nm ≠ [] := by
      intro h
      rw [h] at hlen
      simp at hlen
    simp only [writeAddrBytes]
    rw [if_neg (by simp)]
    rw [if_pos hne, if_pos (by omega)]
  · intro s host p n h1 h2 h3
    refine ⟨gs (r"port number out of range ") ++ p, ?_⟩
    unfold splitHostPortR
    rw [h1]
    simp only []
    rw [h2]
    simp only []
    rw [if_pos (by omega)]

set_option maxRecDepth 8000 in
/-- Claim C7 witness: round trips of 127.0.0.1:80 and of the name
"ab" with port 443; a 256-byte name fails; "1.2.3.4:70000" fails the
port range check. -/
theorem C7_codec_roundtrip_witness :
    (∃ bs a, writeAddrBytes (some ⟨[], [127, 0, 0, 1], 80⟩) = .ok bs
      ∧ readAddrL bs = .ok (a, [])
      ∧ ipEqualGo a.ip [127, 0, 0, 1] = true ∧ a.port = 80 ∧ a.name = [])
    ∧ (∃ bs, writeAddrBytes (some ⟨gs (r"ab"), [], 443⟩) = .ok bs
      ∧ readAddrL bs = .ok (⟨gs (r"ab"), [], 443⟩, []))
    ∧ writeAddrBytes (some ⟨List.replicate 256 97, [], 1⟩) = .error errStringTooLongMsg
    ∧ (∃ e, splitHostPortR (gs (r"1.2.3.4:70000")) = .error e) :=
  ⟨C7_codec_roundtrip.1 [127, 0, 0, 1] 80 (Or.inl rfl) (by decide) (by decide),
   C7_codec_roundtrip.2.1 (gs (r"ab")) 443 (by decide) (by decide) (by decide),
   C7_codec_roundtrip.2.2.1 (List.replicate 256 97) 1 (by decide),
   C7_codec_roundtrip.2.2.2 (gs (r"1.2.3.4:70000")) (gs (r"1.2.3.4")) (gs (r"70000")) 70000
     rfl rfl (by decide)⟩
